import Mathlib

/-!
Shallow embedding of the HIVE simulation-engine core, translated from the
Python sources: the vehicle state machine (hive/model/vehicle/vehicle.py),
the per-tick update pipeline (hive/state/update/step_simulation.py), the
charging fleet manager
(hive/dispatcher/instruction_generator/charging_fleet_manager.py), the
request-vehicle matcher (hive/dispatcher.py) and the report buffer
(hive/reporting/reporter.py).  Entity identifiers become Nat, Python floats
become exact rationals, and fallible operations return Option.
-/

abbrev VehicleId := Nat

abbrev PassengerId := Nat

abbrev GeoId := Nat

abbrev Charger := Nat

/-- A directed link of the road network: origin geoid and destination geoid
(hive/model/roadnetwork/link.py, interface only). -/
structure Link where
  start : GeoId
  stop : GeoId
  deriving DecidableEq, Repr

abbrev Route := List Link

/-- The battery of a vehicle; only the state of charge matters to the claims
below (hive/model/energy/energysource.py, interface only). -/
structure EnergySource where
  soc : ℚ
  deriving DecidableEq, Repr

/-- Modelled from the spec: hive/model/vehicle/vehiclestate.py is not among
the provided sources.  The closed set of states follows the table of spec
§4.2 together with the member names used inside
hive/model/vehicle/vehicle.py and hive/simulationstate/simulationstateops.py. -/
inductive VehicleState
  | IDLE
  | REPOSITIONING
  | DISPATCH_TRIP
  | SERVICING_TRIP
  | DISPATCH_STATION
  | DISPATCH_BASE
  | CHARGING_STATION
  | CHARGING_BASE
  | RESERVE_BASE
  | OUT_OF_SERVICE
  deriving DecidableEq, Repr

/-- Modelled from the spec: the category enumeration lives in the absent
vehiclestate.py.  Spec §4.2 calls ChargingStation and ChargingBase "charging
states" (category CHARGE); the dispatch, servicing and repositioning states
move the vehicle; Idle, ReserveBase and OutOfService do nothing. -/
inductive VehicleStateCategory
  | DO_NOTHING
  | MOVE
  | CHARGE
  deriving DecidableEq, Repr

def VehicleStateCategory.from_vehicle_state : VehicleState → VehicleStateCategory
  | .IDLE => .DO_NOTHING
  | .REPOSITIONING => .MOVE
  | .DISPATCH_TRIP => .MOVE
  | .SERVICING_TRIP => .MOVE
  | .DISPATCH_STATION => .MOVE
  | .DISPATCH_BASE => .MOVE
  | .CHARGING_STATION => .CHARGE
  | .CHARGING_BASE => .CHARGE
  | .RESERVE_BASE => .DO_NOTHING
  | .OUT_OF_SERVICE => .DO_NOTHING

/-- hive/model/vehicle/vehicle.py: class Vehicle(NamedTuple), with the same
fields and default values. -/
structure Vehicle where
  id : VehicleId
  powertrain_id : Nat
  powercurve_id : Nat
  energy_source : EnergySource
  link : Link
  operating_cost_km : ℚ
  route : Route := []
  vehicle_state : VehicleState := .IDLE
  passengers : List PassengerId := []
  charger_intent : Option Charger := none
  balance : ℚ := 0
  idle_time_seconds : Nat := 0
  distance_traveled_km : ℚ := 0
  deriving DecidableEq, Repr

def Vehicle.has_passengers (self : Vehicle) : Bool :=
  self.passengers.length > 0

def Vehicle.has_route (self : Vehicle) : Bool :=
  self.route.length != 0

/-- vehicle.py can_transition.  VehicleState.is_valid always holds here
because VehicleState is a closed inductive type, so the TypeError branch of
the Python code is vacuous. -/
def Vehicle.can_transition (self : Vehicle) (vehicle_state : VehicleState) : Bool :=
  if self.vehicle_state = vehicle_state then false
  else if self.vehicle_state = .OUT_OF_SERVICE then false
  else if self.has_passengers then false
  else true

def Vehicle._reset_idle_stats (self : Vehicle) : Vehicle :=
  { self with idle_time_seconds := 0 }

def Vehicle._reset_charge_intent (self : Vehicle) : Vehicle :=
  { self with charger_intent := none }

def Vehicle.modify_state (self : Vehicle) (vehicle_state : VehicleState) : Vehicle :=
  { self with vehicle_state := vehicle_state }

/-- vehicle.py transition: move the vehicle to a new state when permitted,
mirroring the if/elif chain of the source line for line. -/
def Vehicle.transition (self : Vehicle) (vehicle_state : VehicleState) : Option Vehicle :=
  let previous_vehicle_state := self.vehicle_state
  if previous_vehicle_state = vehicle_state then some self
  else if self.can_transition vehicle_state then
    let transitioned_vehicle := { self with vehicle_state := vehicle_state }
    if vehicle_state = .OUT_OF_SERVICE then
      some { transitioned_vehicle with route := [] }
    else if previous_vehicle_state = .IDLE then
      some transitioned_vehicle._reset_idle_stats
    else if VehicleStateCategory.from_vehicle_state previous_vehicle_state = .CHARGE ∧
        VehicleStateCategory.from_vehicle_state vehicle_state ≠ .CHARGE then
      some transitioned_vehicle._reset_charge_intent
    else if previous_vehicle_state = .DISPATCH_STATION ∧
        VehicleStateCategory.from_vehicle_state vehicle_state ≠ .CHARGE then
      some transitioned_vehicle._reset_charge_intent
    else
      some transitioned_vehicle
  else none

/-- A sample vehicle plugged in at a station with a recorded charger intent. -/
def chargingVehicle : Vehicle :=
  { id := 1
    powertrain_id := 0
    powercurve_id := 0
    energy_source := ⟨1⟩
    link := ⟨0, 0⟩
    operating_cost_km := 0
    vehicle_state := .CHARGING_STATION
    charger_intent := some 0 }

/-- A sample vehicle dispatched to a station with a recorded charger intent. -/
def dispatchStationVehicle : Vehicle :=
  { chargingVehicle with id := 2, vehicle_state := .DISPATCH_STATION }

/-- A sample vehicle that is out of service. -/
def oosVehicle : Vehicle :=
  { chargingVehicle with
    id := 3
    vehicle_state := .OUT_OF_SERVICE
    charger_intent := none }

/-- A sample charging vehicle with accumulated idle time. -/
def idleStatsVehicle : Vehicle :=
  { chargingVehicle with id := 4, idle_time_seconds := 7 }

/-- C4: transition to the current state is a no-op returning the vehicle
unchanged; no transition leaves OutOfService; a vehicle carrying passengers
admits no transition to a different state. -/
theorem vehicle_transition_guards (v : Vehicle) (target : VehicleState) :
    v.transition v.vehicle_state = some v ∧
    (v.vehicle_state = .OUT_OF_SERVICE → target ≠ v.vehicle_state →
      v.transition target = none) ∧
    (v.has_passengers = true → target ≠ v.vehicle_state →
      v.transition target = none) := by
  refine ⟨?_, ?_, ?_⟩
  · simp [Vehicle.transition]
  · intro hoos hne
    rw [hoos] at hne
    simp [Vehicle.transition, Vehicle.can_transition, hoos, hne.symm]
  · intro hpass hne
    simp [Vehicle.transition, Vehicle.can_transition, hpass, hne.symm]

/-- Witness for C4: an out-of-service vehicle cannot move to Idle. -/
theorem vehicle_transition_guards_witness :
    oosVehicle.transition .IDLE = none :=
  (vehicle_transition_guards oosVehicle .IDLE).2.1 rfl (by decide)

/-- C5 fails on the code: Vehicle.transition checks the OutOfService target
before the charge-interruption branches, so leaving ChargingStation for the
non-charging state OutOfService keeps the charger intent; the no-op
self-transition of DispatchStation keeps it as well. -/
theorem transition_keeps_charger_intent_cex :
    (chargingVehicle.transition .OUT_OF_SERVICE).map Vehicle.charger_intent
      = some (some 0) ∧
    (dispatchStationVehicle.transition .DISPATCH_STATION).map Vehicle.charger_intent
      = some (some 0) := by
  decide

/-- C5 amended: from ChargingStation, ChargingBase or DispatchStation, every
successful transition to a non-charging state other than OutOfService and
other than the current state returns a vehicle with charger_intent cleared. -/
theorem transition_clears_charger_intent (v v' : Vehicle) (target : VehicleState)
    (hstate : v.vehicle_state = .CHARGING_STATION ∨ v.vehicle_state = .CHARGING_BASE ∨
      v.vehicle_state = .DISPATCH_STATION)
    (hcat : VehicleStateCategory.from_vehicle_state target ≠ .CHARGE)
    (hoos : target ≠ .OUT_OF_SERVICE)
    (hne : target ≠ v.vehicle_state)
    (h : v.transition target = some v') :
    v'.charger_intent = none := by
  by_cases hpass : v.has_passengers
  · have hv : v.vehicle_state ≠ target := fun hh => hne hh.symm
    simp [Vehicle.transition, Vehicle.can_transition, hpass, hv] at h
  · rcases hstate with hs | hs | hs <;> rw [hs] at hne <;> cases target <;>
      first
      | exact absurd rfl hne
      | exact absurd rfl hoos
      | exact absurd rfl hcat
      | (simp [Vehicle.transition, Vehicle.can_transition,
          VehicleStateCategory.from_vehicle_state, Vehicle._reset_charge_intent,
          hpass, hs] at h; subst h; rfl)

/-- Witness for C5 amended: unplugging from ChargingStation to Idle clears the
charger intent. -/
theorem transition_clears_charger_intent_witness :
    ({ chargingVehicle with
        vehicle_state := VehicleState.IDLE
        charger_intent := none } : Vehicle).charger_intent = none :=
  transition_clears_charger_intent chargingVehicle _ .IDLE (Or.inl rfl)
    (by decide) (by decide) (by decide) (by decide)

/-- C10: with no passengers aboard and the vehicle not already OutOfService,
the transition to OutOfService succeeds, empties the route, sets the state,
and leaves every other field (in particular charger_intent and
idle_time_seconds) unchanged. -/
theorem transition_to_out_of_service_frame (v : Vehicle)
    (hpass : v.has_passengers = false)
    (hstate : v.vehicle_state ≠ .OUT_OF_SERVICE) :
    v.transition .OUT_OF_SERVICE
      = some { v with vehicle_state := .OUT_OF_SERVICE, route := [] } := by
  simp [Vehicle.transition, Vehicle.can_transition, hpass, hstate]

/-- Witness for C10: a charging vehicle with idle statistics and a charger
intent goes OutOfService keeping both fields. -/
theorem transition_to_out_of_service_frame_witness :
    idleStatsVehicle.transition .OUT_OF_SERVICE
      = some { idleStatsVehicle with
          vehicle_state := .OUT_OF_SERVICE
          route := [] } :=
  transition_to_out_of_service_frame idleStatsVehicle rfl (by decide)

/-- Modelled from the spec: hive/state/simulation_state/simulation_state.py is
not among the provided sources.  Spec §3 gives sim_time, the timestep
duration and the VehicleId→Vehicle mapping; only those parts enter the claims
below.  The mapping is realised as an association list whose iteration order
is the id-sorted order required by spec §4.1 (get_vehicles) and the
determinism rule of §4.6, maintained by add_vehicle below. -/
structure SimulationState where
  sim_time : Nat
  sim_timestep_duration_seconds : Nat
  vehicles : List (VehicleId × Vehicle)
  deriving DecidableEq, Repr

/-- Modelled from the spec: tick() returns self with sim_time += timestep
(spec §4.1). -/
def SimulationState.tick (self : SimulationState) : SimulationState :=
  { self with sim_time := self.sim_time + self.sim_timestep_duration_seconds }

/-- Modelled from the spec: modify_vehicle(v) rewrites the entry of v.id in
the vehicle mapping (spec §4.1); spatial re-indexing is outside the claims. -/
def SimulationState.modify_vehicle (self : SimulationState) (vid : VehicleId)
    (v : Vehicle) : SimulationState :=
  { self with vehicles := self.vehicles.map fun p => if p.1 = vid then (p.1, v) else p }

/-- Modelled from the spec: step_vehicle(vid, env) invokes the vehicle-state
update of §4.2 on that vehicle and rewrites it into the state, returning None
only on an invariant violation.  The per-vehicle update delivered through the
environment is abstracted as a function on the vehicle. -/
def SimulationState.step_vehicle (self : SimulationState)
    (f : Vehicle → Option Vehicle) (vid : VehicleId) : Option SimulationState :=
  match self.vehicles.lookup vid with
  | none => none
  | some v =>
    match f v with
    | none => none
    | some v' => some (self.modify_vehicle vid v')

/-- Key order of the vehicles mapping: tuple(simulation_state.vehicles.keys())
of step_simulation.py line 24, the list the Step phase folds over. -/
def step_visit_order (simulation_state : SimulationState) : List VehicleId :=
  simulation_state.vehicles.map Prod.fst

/-- step_simulation.py _step_vehicle folded by ft.reduce: each step invokes
step_vehicle on the accumulated state and, when it returns None, yields the
original simulation_state argument captured by the closure. -/
def step_fold (f : Vehicle → Option Vehicle) (simulation_state : SimulationState)
    (vids : List VehicleId) : SimulationState :=
  vids.foldl
    (fun s vid =>
      match s.step_vehicle f vid with
      | none => simulation_state
      | some updated_sim => updated_sim)
    simulation_state

/-- step_simulation.py step_simulation: fold _step_vehicle over the vehicle
keys, then tick. -/
def step_simulation (f : Vehicle → Option Vehicle)
    (simulation_state : SimulationState) : SimulationState :=
  (step_fold f simulation_state (step_visit_order simulation_state)).tick

/-- Modelled from the spec: the instruction classes of
hive/model/instruction are not among the provided sources.  Spec §4.5 makes
an instruction application an atomic vehicle-state transition yielding None
on failure, so an instruction is abstracted as a target state for one
vehicle, applied through Vehicle.transition of vehicle.py. -/
structure Instruction where
  vehicle_id : VehicleId
  target : VehicleState
  deriving DecidableEq, Repr

def Instruction.apply_instruction (self : Instruction)
    (s : SimulationState) : Option SimulationState :=
  match s.vehicles.lookup self.vehicle_id with
  | none => none
  | some v =>
    match v.transition self.target with
    | none => none
    | some v' => some (s.modify_vehicle self.vehicle_id v')

/-- step_simulation.py apply_instructions: _add_instruction folded by
ft.reduce over the instruction tuple; when apply_instruction returns None the
closure yields the original simulation_state argument. -/
def apply_instructions (simulation_state : SimulationState)
    (instructions : List Instruction) : SimulationState :=
  instructions.foldl
    (fun s instruction =>
      match instruction.apply_instruction s with
      | none => simulation_state
      | some updated_sim => updated_sim)
    simulation_state

/-- step_simulation.py StepSimulation.update: generate instructions, apply
them, then step the simulation into the next time step.  The dispatcher is
abstracted as the function producing this tick's instructions. -/
def StepSimulation.update (dispatcher : SimulationState → List Instruction)
    (f : Vehicle → Option Vehicle) (simulation_state : SimulationState) : SimulationState :=
  let instructions := dispatcher simulation_state
  let sim_with_instructions := apply_instructions simulation_state instructions
  step_simulation f sim_with_instructions

def keyLe (p q : VehicleId × Vehicle) : Prop := p.1 ≤ q.1

instance : DecidableRel keyLe := fun p q => Nat.decLe p.1 q.1

instance : IsTotal (VehicleId × Vehicle) keyLe := ⟨fun p q => Nat.le_total p.1 q.1⟩

instance : IsTrans (VehicleId × Vehicle) keyLe := ⟨fun _ _ _ h1 h2 => le_trans h1 h2⟩

/-- Modelled from the spec: add_vehicle fails when the id collides
(spec §4.1) and maintains the id-sorted iteration order of the vehicles
mapping (spec §4.1 and §4.6). -/
def SimulationState.add_vehicle (self : SimulationState) (v : Vehicle) :
    Option SimulationState :=
  if (self.vehicles.map Prod.fst).contains v.id then none
  else some { self with vehicles := self.vehicles.orderedInsert keyLe (v.id, v) }

/-- simulationstateops.py initial_simulation_state restricted to vehicles:
fold the vehicles into an empty state, keeping the prior state when an add
fails (the failure log is outside the claims). -/
def initial_simulation_state (start_time : Nat) (timestep : Nat)
    (vehicles : List Vehicle) : SimulationState :=
  vehicles.foldl (fun s v => (s.add_vehicle v).getD s)
    { sim_time := start_time, sim_timestep_duration_seconds := timestep, vehicles := [] }

theorem step_vehicle_frame {s : SimulationState} {f : Vehicle → Option Vehicle}
    {vid : VehicleId} {s' : SimulationState} (h : s.step_vehicle f vid = some s') :
    s'.sim_time = s.sim_time ∧
    s'.sim_timestep_duration_seconds = s.sim_timestep_duration_seconds := by
  simp only [SimulationState.step_vehicle] at h
  cases hl : s.vehicles.lookup vid with
  | none => simp [hl] at h
  | some v =>
    cases hf : f v with
    | none => simp [hl, hf] at h
    | some v' =>
      simp [hl, hf] at h
      subst h
      exact ⟨rfl, rfl⟩

theorem apply_instruction_frame {s : SimulationState} {i : Instruction}
    {s' : SimulationState} (h : i.apply_instruction s = some s') :
    s'.sim_time = s.sim_time ∧
    s'.sim_timestep_duration_seconds = s.sim_timestep_duration_seconds := by
  simp only [Instruction.apply_instruction] at h
  cases hl : s.vehicles.lookup i.vehicle_id with
  | none => simp [hl] at h
  | some v =>
    cases hf : v.transition i.target with
    | none => simp [hl, hf] at h
    | some v' =>
      simp [hl, hf] at h
      subst h
      exact ⟨rfl, rfl⟩

theorem step_fold_preserves_time (f : Vehicle → Option Vehicle)
    (s : SimulationState) (vids : List VehicleId) :
    (step_fold f s vids).sim_time = s.sim_time ∧
    (step_fold f s vids).sim_timestep_duration_seconds
      = s.sim_timestep_duration_seconds := by
  suffices haux : ∀ acc : SimulationState,
      acc.sim_time = s.sim_time ∧
        acc.sim_timestep_duration_seconds = s.sim_timestep_duration_seconds →
      (List.foldl
          (fun t vid =>
            match t.step_vehicle f vid with
            | none => s
            | some updated_sim => updated_sim)
          acc vids).sim_time = s.sim_time ∧
      (List.foldl
          (fun t vid =>
            match t.step_vehicle f vid with
            | none => s
            | some updated_sim => updated_sim)
          acc vids).sim_timestep_duration_seconds = s.sim_timestep_duration_seconds by
    exact haux s ⟨rfl, rfl⟩
  induction vids with
  | nil => exact fun acc h => h
  | cons vid rest ih =>
    intro acc h
    rw [List.foldl_cons]
    apply ih
    cases hsv : acc.step_vehicle f vid with
    | none => simp [hsv]
    | some u =>
      simp [hsv]
      obtain ⟨h1, h2⟩ := step_vehicle_frame hsv
      exact ⟨h1.trans h.1, h2.trans h.2⟩

theorem apply_instructions_preserves_time (s : SimulationState)
    (instructions : List Instruction) :
    (apply_instructions s instructions).sim_time = s.sim_time ∧
    (apply_instructions s instructions).sim_timestep_duration_seconds
      = s.sim_timestep_duration_seconds := by
  suffices haux : ∀ acc : SimulationState,
      acc.sim_time = s.sim_time ∧
        acc.sim_timestep_duration_seconds = s.sim_timestep_duration_seconds →
      (List.foldl
          (fun t instruction =>
            match instruction.apply_instruction t with
            | none => s
            | some updated_sim => updated_sim)
          acc instructions).sim_time = s.sim_time ∧
      (List.foldl
          (fun t instruction =>
            match instruction.apply_instruction t with
            | none => s
            | some updated_sim => updated_sim)
          acc instructions).sim_timestep_duration_seconds
        = s.sim_timestep_duration_seconds by
    exact haux s ⟨rfl, rfl⟩
  induction instructions with
  | nil => exact fun acc h => h
  | cons instruction rest ih =>
    intro acc h
    rw [List.foldl_cons]
    apply ih
    cases hai : instruction.apply_instruction acc with
    | none => simp [hai]
    | some u =>
      simp [hai]
      obtain ⟨h1, h2⟩ := apply_instruction_frame hai
      exact ⟨h1.trans h.1, h2.trans h.2⟩

/-- C2: one StepSimulation.update invocation applies the instructions, steps
the vehicles, and ticks exactly once at the end: for every dispatcher,
per-vehicle update and state, the resulting sim_time exceeds the input
sim_time by exactly the timestep duration. -/
theorem step_simulation_update_advances_time
    (dispatcher : SimulationState → List Instruction)
    (f : Vehicle → Option Vehicle) (s : SimulationState) :
    (StepSimulation.update dispatcher f s).sim_time
      = s.sim_time + s.sim_timestep_duration_seconds := by
  unfold StepSimulation.update step_simulation SimulationState.tick
  obtain ⟨h1, h2⟩ := step_fold_preserves_time f (apply_instructions s (dispatcher s))
    (step_visit_order (apply_instructions s (dispatcher s)))
  obtain ⟨h3, h4⟩ := apply_instructions_preserves_time s (dispatcher s)
  simp only [step_fold] at h1 h2
  simp [step_fold, h1, h2, h3, h4]

/-- A sample idle vehicle for the pipeline counterexamples. -/
def idleVehicleOne : Vehicle :=
  { id := 1
    powertrain_id := 0
    powercurve_id := 0
    energy_source := ⟨1⟩
    link := ⟨0, 0⟩
    operating_cost_km := 0 }

/-- A second sample idle vehicle. -/
def idleVehicleTwo : Vehicle :=
  { idleVehicleOne with id := 2 }

/-- A one-vehicle simulation state for the instruction-fold counterexample. -/
def simCex : SimulationState :=
  { sim_time := 0
    sim_timestep_duration_seconds := 60
    vehicles := [(1, idleVehicleOne)] }

/-- Reposition vehicle 1: applies successfully on simCex. -/
def instructionOne : Instruction := ⟨1, .REPOSITIONING⟩

/-- Idle the absent vehicle 2: apply_instruction fails on it. -/
def instructionTwo : Instruction := ⟨2, .IDLE⟩

/-- Dispatch vehicle 1 to a base; a later instruction for the amended
C1 witness. -/
def instructionThree : Instruction := ⟨1, .DISPATCH_BASE⟩

/-- C1 fails on the code: folding [reposition vehicle 1, idle the absent
vehicle 2] over a one-vehicle state, the first instruction succeeds and moves
vehicle 1 to Repositioning, the second returns None, and the fold yields the
original state with vehicle 1 still Idle: the successfully applied earlier
instruction is not retained. -/
theorem apply_instructions_drops_prior_effects_cex :
    (instructionOne.apply_instruction simCex).map
        (fun s => (s.vehicles.lookup 1).map Vehicle.vehicle_state)
      = some (some .REPOSITIONING) ∧
    instructionTwo.apply_instruction (apply_instructions simCex [instructionOne])
      = none ∧
    apply_instructions simCex [instructionOne, instructionTwo] = simCex ∧
    ((apply_instructions simCex [instructionOne, instructionTwo]).vehicles.lookup 1).map
        Vehicle.vehicle_state = some .IDLE := by
  decide

/-- C1 amended: when an instruction's apply_instruction returns None at its
place in the fold, the accumulator is reset to the original input state,
discarding the effects of every previously applied instruction; the remaining
instructions then fold over that original state. -/
theorem apply_instructions_failure_resets (s : SimulationState)
    (pre rest : List Instruction) (i : Instruction)
    (h : i.apply_instruction (apply_instructions s pre) = none) :
    apply_instructions s (pre ++ i :: rest) = apply_instructions s rest := by
  simp only [apply_instructions] at h ⊢
  rw [List.foldl_append, List.foldl_cons, h]

/-- Witness for C1 amended: the failing second instruction erases the first
instruction's effect and the third applies to the original state. -/
theorem apply_instructions_failure_resets_witness :
    apply_instructions simCex [instructionOne, instructionTwo, instructionThree]
      = apply_instructions simCex [instructionThree] :=
  apply_instructions_failure_resets simCex [instructionOne] [instructionThree]
    instructionTwo (by decide)

/-- A two-vehicle simulation state for the step-fold counterexample. -/
def simStepCex : SimulationState :=
  { sim_time := 0
    sim_timestep_duration_seconds := 60
    vehicles := [(1, idleVehicleOne), (2, idleVehicleTwo)] }

/-- A per-vehicle update that violates an invariant on vehicle 1 (returning
None) and accrues idle time on every other vehicle. -/
def failingStep : Vehicle → Option Vehicle :=
  fun v =>
    if v.id = 1 then none
    else some { v with idle_time_seconds := v.idle_time_seconds + 60 }

/-- C6 fails on the code: step_vehicle returns None for vehicle 1, yet the
fold swaps in the original state and keeps going: vehicle 2 is still stepped
and the tick still advances sim_time, so the tick is not aborted and the
remaining vehicles are stepped as if nothing happened. -/
theorem step_vehicle_failure_cex :
    simStepCex.step_vehicle failingStep 1 = none ∧
    (step_simulation failingStep simStepCex).sim_time
      = simStepCex.sim_time + simStepCex.sim_timestep_duration_seconds ∧
    ((step_simulation failingStep simStepCex).vehicles.lookup 2).map
        Vehicle.idle_time_seconds = some 60 := by
  decide

/-- C6 amended: a None from step_vehicle is not fatal to the tick: the fold
replaces the accumulator with the original pre-step state, continues stepping
the remaining vehicles from it, and the tick still advances sim_time by the
timestep duration. -/
theorem step_vehicle_failure_not_fatal (f : Vehicle → Option Vehicle)
    (s : SimulationState) (pre rest : List VehicleId) (vid : VehicleId)
    (hkeys : step_visit_order s = pre ++ vid :: rest)
    (h : (step_fold f s pre).step_vehicle f vid = none) :
    step_simulation f s = (step_fold f s rest).tick ∧
    (step_simulation f s).sim_time
      = s.sim_time + s.sim_timestep_duration_seconds := by
  have hrest : step_fold f s (pre ++ vid :: rest) = step_fold f s rest := by
    simp only [step_fold] at h ⊢
    rw [List.foldl_append, List.foldl_cons, h]
  have hmain : step_simulation f s = (step_fold f s rest).tick := by
    rw [step_simulation, hkeys, hrest]
  refine ⟨hmain, ?_⟩
  rw [hmain]
  obtain ⟨h1, h2⟩ := step_fold_preserves_time f s rest
  simp [SimulationState.tick, h1, h2]

/-- Witness for C6 amended: with the failing step on vehicle 1, the tick
completes from the original state over the remaining vehicle 2. -/
theorem step_vehicle_failure_not_fatal_witness :
    step_simulation failingStep simStepCex
      = (step_fold failingStep simStepCex [2]).tick ∧
    (step_simulation failingStep simStepCex).sim_time
      = simStepCex.sim_time + simStepCex.sim_timestep_duration_seconds :=
  step_vehicle_failure_not_fatal failingStep simStepCex [] [2] 1
    (by decide) (by decide)

theorem add_fold_keeps_sorted (vehicles : List Vehicle) :
    ∀ s : SimulationState, s.vehicles.Sorted keyLe →
      (vehicles.foldl (fun s v => (s.add_vehicle v).getD s) s).vehicles.Sorted keyLe := by
  induction vehicles with
  | nil => exact fun s h => h
  | cons v rest ih =>
    intro s h
    rw [List.foldl_cons]
    apply ih
    unfold SimulationState.add_vehicle
    split
    · simpa using h
    · simpa using h.orderedInsert (v.id, v) s.vehicles

/-- C3: for every simulation state assembled by add_vehicle from an initial
state, the key tuple the Step phase folds over (step_simulation.py line 24)
lists the vehicle ids in ascending sorted order. -/
theorem step_visit_order_sorted (start_time timestep : Nat)
    (vehicles : List Vehicle) :
    (step_visit_order (initial_simulation_state start_time timestep vehicles)).Sorted
      (· ≤ ·) := by
  have h := add_fold_keeps_sorted vehicles
    { sim_time := start_time, sim_timestep_duration_seconds := timestep, vehicles := [] }
    (by simp)
  exact List.Pairwise.map Prod.fst (fun a b hab => hab) h

/-- The new-architecture vehicle-state classes of hive/state/vehicle_state
as referenced by charging_fleet_manager.py; only the class tag matters to
its isinstance checks. -/
inductive VehicleStateClass
  | Idle
  | Repositioning
  | DispatchTrip
  | ServicingTrip
  | DispatchStation
  | DispatchBase
  | ChargingStation
  | ChargingBase
  | ReserveBase
  | OutOfService
  deriving DecidableEq, Repr

/-- The new-architecture vehicle seen by the charging fleet manager.
range_remaining_km and fuel_source_soc stand for the values of
environment.mechatronics.get(v.mechatronics_id).range_remaining_km(v) and
.fuel_source_soc(v); the mechatronics table is outside the provided
sources, so both enter as fields. -/
structure FleetVehicle where
  id : VehicleId
  vehicle_state : VehicleStateClass
  range_remaining_km : ℚ
  fuel_source_soc : ℚ
  deriving DecidableEq, Repr

/-- The DispatcherConfig values read by charging_fleet_manager.py. -/
structure DispatcherConfig where
  charging_range_km_threshold : ℚ
  ideal_fastcharge_soc_limit : ℚ
  deriving DecidableEq, Repr

/-- Modelled from the spec: the instructions built by
instruct_vehicles_to_dispatch_to_station and instruct_vehicles_to_sit_idle
of the absent instruction_generator_ops.py; spec §4.4 has the manager emit
DispatchToStation for low-range vehicles and SitIdle for charged ones. -/
inductive FleetInstruction
  | DispatchToStation (vehicle_id : VehicleId)
  | SitIdle (vehicle_id : VehicleId)
  deriving DecidableEq, Repr

/-- charging_fleet_manager.py charge_candidate: Idle or Repositioning with
remaining range at most the charging threshold. -/
def charge_candidate (config : DispatcherConfig) (v : FleetVehicle) : Bool :=
  if ¬(v.vehicle_state = .Idle ∨ v.vehicle_state = .Repositioning) then false
  else decide (v.range_remaining_km ≤ config.charging_range_km_threshold)

/-- charging_fleet_manager.py stop_charge_candidate: ChargingStation with
battery soc at or above the fast-charge soc limit. -/
def stop_charge_candidate (config : DispatcherConfig) (v : FleetVehicle) : Bool :=
  if ¬(v.vehicle_state = .ChargingStation) then false
  else decide (v.fuel_source_soc ≥ config.ideal_fastcharge_soc_limit)

/-- Modelled from the spec: get_vehicles(filter_function) of the absent
simulation_state module returns the vehicles passing the filter
(spec §4.1); their id-sorted order plays no role in this claim. -/
def get_vehicles (vehicles : List FleetVehicle)
    (filter_function : FleetVehicle → Bool) : List FleetVehicle :=
  vehicles.filter filter_function

/-- Modelled from the spec: instruct_vehicles_to_dispatch_to_station of the
absent instruction_generator_ops.py emits a DispatchToStation instruction
for each of the first n vehicles (spec §4.4); the nearest-plug target is
outside the claim. -/
def instruct_vehicles_to_dispatch_to_station (n : Nat)
    (vehicles : List FleetVehicle) : List FleetInstruction :=
  (vehicles.take n).map fun v => .DispatchToStation v.id

/-- Modelled from the spec: instruct_vehicles_to_sit_idle of the absent
instruction_generator_ops.py emits a SitIdle instruction for each of the
first n vehicles. -/
def instruct_vehicles_to_sit_idle (n : Nat)
    (vehicles : List FleetVehicle) : List FleetInstruction :=
  (vehicles.take n).map fun v => .SitIdle v.id

/-- charging_fleet_manager.py generate_instructions: DispatchToStation for
every low-soc candidate, then SitIdle for every finished charger. -/
def generate_instructions (config : DispatcherConfig)
    (vehicles : List FleetVehicle) : List FleetInstruction :=
  let low_soc_vehicles := get_vehicles vehicles (charge_candidate config)
  let high_soc_vehicles := get_vehicles vehicles (stop_charge_candidate config)
  instruct_vehicles_to_dispatch_to_station low_soc_vehicles.length low_soc_vehicles
    ++ instruct_vehicles_to_sit_idle high_soc_vehicles.length high_soc_vehicles

theorem charge_candidate_iff (config : DispatcherConfig) (v : FleetVehicle) :
    charge_candidate config v = true ↔
      ((v.vehicle_state = .Idle ∨ v.vehicle_state = .Repositioning) ∧
        v.range_remaining_km ≤ config.charging_range_km_threshold) := by
  by_cases h : v.vehicle_state = .Idle ∨ v.vehicle_state = .Repositioning <;>
    simp [charge_candidate, h]

theorem stop_charge_candidate_iff (config : DispatcherConfig) (v : FleetVehicle) :
    stop_charge_candidate config v = true ↔
      (v.vehicle_state = .ChargingStation ∧
        v.fuel_source_soc ≥ config.ideal_fastcharge_soc_limit) := by
  by_cases h : v.vehicle_state = .ChargingStation <;>
    simp [stop_charge_candidate, h]

/-- C7: the charging fleet manager emits DispatchToStation exactly for the
vehicles in Idle or Repositioning whose remaining range is at most
charging_range_km_threshold, and SitIdle exactly for the ChargingStation
vehicles at or above ideal_fastcharge_soc_limit; as its output holds only
these two instruction kinds, no other vehicle receives an instruction. -/
theorem charging_fleet_manager_exact (config : DispatcherConfig)
    (vehicles : List FleetVehicle) (v : FleetVehicle)
    (hmem : v ∈ vehicles)
    (hids : (vehicles.map FleetVehicle.id).Nodup) :
    (FleetInstruction.DispatchToStation v.id ∈ generate_instructions config vehicles ↔
      ((v.vehicle_state = .Idle ∨ v.vehicle_state = .Repositioning) ∧
        v.range_remaining_km ≤ config.charging_range_km_threshold)) ∧
    (FleetInstruction.SitIdle v.id ∈ generate_instructions config vehicles ↔
      (v.vehicle_state = .ChargingStation ∧
        v.fuel_source_soc ≥ config.ideal_fastcharge_soc_limit)) := by
  constructor
  · rw [← charge_candidate_iff]
    constructor
    · intro hin
      simp only [generate_instructions, get_vehicles,
        instruct_vehicles_to_dispatch_to_station, instruct_vehicles_to_sit_idle,
        List.take_length, List.mem_append, List.mem_map, List.mem_filter] at hin
      rcases hin with ⟨u, ⟨humem, hucand⟩, hueq⟩ | ⟨u, ⟨humem, hucand⟩, hueq⟩
      · have huid : u.id = v.id := by injection hueq
        have := List.inj_on_of_nodup_map hids humem hmem huid
        subst this
        exact hucand
      · cases hueq
    · intro hcand
      simp only [generate_instructions, get_vehicles,
        instruct_vehicles_to_dispatch_to_station, instruct_vehicles_to_sit_idle,
        List.take_length, List.mem_append, List.mem_map, List.mem_filter]
      exact Or.inl ⟨v, ⟨hmem, hcand⟩, rfl⟩
  · rw [← stop_charge_candidate_iff]
    constructor
    · intro hin
      simp only [generate_instructions, get_vehicles,
        instruct_vehicles_to_dispatch_to_station, instruct_vehicles_to_sit_idle,
        List.take_length, List.mem_append, List.mem_map, List.mem_filter] at hin
      rcases hin with ⟨u, ⟨humem, hucand⟩, hueq⟩ | ⟨u, ⟨humem, hucand⟩, hueq⟩
      · cases hueq
      · have huid : u.id = v.id := by injection hueq
        have := List.inj_on_of_nodup_map hids humem hmem huid
        subst this
        exact hucand
    · intro hcand
      simp only [generate_instructions, get_vehicles,
        instruct_vehicles_to_dispatch_to_station, instruct_vehicles_to_sit_idle,
        List.take_length, List.mem_append, List.mem_map, List.mem_filter]
      exact Or.inr ⟨v, ⟨hmem, hcand⟩, rfl⟩

/-- A sample dispatcher configuration (integer-valued rationals keep kernel
evaluation cheap). -/
def cfgSample : DispatcherConfig :=
  { charging_range_km_threshold := 20, ideal_fastcharge_soc_limit := 1 }

/-- A low-range idle vehicle. -/
def fleetLow : FleetVehicle :=
  { id := 1, vehicle_state := .Idle, range_remaining_km := 5, fuel_source_soc := 0 }

/-- A charged vehicle still plugged in at a station. -/
def fleetCharged : FleetVehicle :=
  { id := 2, vehicle_state := .ChargingStation, range_remaining_km := 100,
    fuel_source_soc := 1 }

/-- A busy vehicle that must receive no charging instruction. -/
def fleetBusy : FleetVehicle :=
  { id := 3, vehicle_state := .ServicingTrip, range_remaining_km := 5,
    fuel_source_soc := 0 }

/-- A sample fleet. -/
def fleetSample : List FleetVehicle := [fleetLow, fleetCharged, fleetBusy]

/-- Witness for C7: the low-range idle vehicle of the sample fleet is sent
to a station. -/
theorem charging_fleet_manager_exact_witness :
    FleetInstruction.DispatchToStation 1 ∈ generate_instructions cfgSample fleetSample :=
  ((charging_fleet_manager_exact cfgSample fleetSample fleetLow (by decide)
      (by decide)).1).mpr (by decide)

/-- One row of the Dispatcher fleet_state matrix of hive/dispatcher.py, with
the columns of ENV FLEET_STATE_IDX that _get_n_best_vehicles reads. -/
structure FleetStateRow where
  x : ℚ
  y : ℚ
  available : ℚ
  soc : ℚ
  kwh_per_mi : ℚ
  battery_capacity_kwh : ℚ
  avail_seats : ℚ
  deriving DecidableEq, Repr

/-- The environment constants hive/dispatcher.py _get_n_best_vehicles reads. -/
structure DispatchEnv where
  max_dispatch_miles : ℚ
  min_allowed_soc : ℚ
  deriving DecidableEq, Repr

/-- A request row as consumed by _get_n_best_vehicles. -/
structure RequestRow where
  distance_miles : ℚ
  passengers : ℚ
  deriving DecidableEq, Repr

/-- Insert an index into an index list ordered by ascending distance. -/
def insertByDist (dist : List ℚ) (i : Nat) : List Nat → List Nat
  | [] => [i]
  | j :: rest =>
    if dist.getD i 0 ≤ dist.getD j 0 then i :: j :: rest
    else j :: insertByDist dist i rest

/-- np.argsort over the per-vehicle distance array: the vehicle indices in
order of ascending distance. -/
def argsort (dist : List ℚ) : List Nat :=
  (List.range dist.length).foldr (insertByDist dist) []

/-- hive/dispatcher.py _get_n_best_vehicles: the distance-sorted vehicle
indices, kept when inside the dispatch radius, available, above the minimum
allowed soc after the dispatch leg plus the trip leg, and seated, truncated
to the best n.  The haversine distances (an external C library in the
source) enter as the dist argument, already converted to miles. -/
def _get_n_best_vehicles (env : DispatchEnv) (fleet_state : List FleetStateRow)
    (dist : List ℚ) (request : RequestRow) (n : Nat) : List Nat :=
  let mask : Nat → Bool := fun i =>
    match dist[i]?, fleet_state[i]? with
    | some d, some row =>
      decide (d < env.max_dispatch_miles) &&
        decide (row.available = 1) &&
        decide (row.soc - (d + request.distance_miles) * row.kwh_per_mi
            / row.battery_capacity_kwh > env.min_allowed_soc) &&
        decide (row.avail_seats ≥ request.passengers)
    | _, _ => false
  ((argsort dist).filter mask).take n

/-- C8: a vehicle whose soc minus the soc consumed by the dispatch leg plus
the trip leg does not exceed the minimum allowed soc is excluded from the
best-vehicle candidates, whatever its distance rank. -/
theorem low_soc_vehicle_excluded (env : DispatchEnv)
    (fleet_state : List FleetStateRow) (dist : List ℚ) (request : RequestRow)
    (n i : Nat) (d : ℚ) (row : FleetStateRow)
    (hd : dist[i]? = some d)
    (hrow : fleet_state[i]? = some row)
    (hsoc : row.soc - (d + request.distance_miles) * row.kwh_per_mi
        / row.battery_capacity_kwh ≤ env.min_allowed_soc) :
    i ∉ _get_n_best_vehicles env fleet_state dist request n := by
  intro hmem
  simp only [_get_n_best_vehicles] at hmem
  have h1 := List.mem_of_mem_take hmem
  have h2 := List.of_mem_filter h1
  simp only [hd, hrow, Bool.and_eq_true, decide_eq_true_eq] at h2
  exact absurd h2.1.2 (not_lt.mpr hsoc)

/-- A sample dispatch environment. -/
def envSample : DispatchEnv := { max_dispatch_miles := 10, min_allowed_soc := 2 }

/-- The nearest vehicle, with too little charge for dispatch plus trip. -/
def rowNear : FleetStateRow :=
  { x := 0, y := 0, available := 1, soc := 2, kwh_per_mi := 1,
    battery_capacity_kwh := 1, avail_seats := 4 }

/-- A farther vehicle with ample charge. -/
def rowFar : FleetStateRow :=
  { x := 1, y := 1, available := 1, soc := 9, kwh_per_mi := 1,
    battery_capacity_kwh := 1, avail_seats := 4 }

/-- The sample fleet-state matrix. -/
def fleetStateSample : List FleetStateRow := [rowNear, rowFar]

/-- Distances of the sample vehicles to the request, in miles. -/
def distSample : List ℚ := [0, 1]

/-- The sample request. -/
def requestSample : RequestRow := { distance_miles := 1, passengers := 1 }

/-- Witness for C8: the nearest vehicle lacks the soc for dispatch plus trip
and is excluded from the single-best-candidate list. -/
theorem low_soc_vehicle_excluded_witness :
    0 ∉ _get_n_best_vehicles envSample fleetStateSample distSample requestSample 1 :=
  low_soc_vehicle_excluded envSample fleetStateSample distSample requestSample
    1 0 0 rowNear (by decide) (by decide)
    (by simp [rowNear, requestSample, envSample])

/-- hive/reporting/reporter.py Report: a report type with a string payload. -/
structure Report where
  report_type : Nat
  report : List (String × String)
  deriving DecidableEq, Repr

/-- hive/reporting/reporter.py Reporter, with the handler objects abstracted
to identifiers.  flush returns the updated reporter together with the
handler.handle invocations it performs, each the handler with the report
list passed to it. -/
structure Reporter where
  log_period_seconds : Nat
  reports : List Report
  handlers : List Nat
  deriving DecidableEq, Repr

/-- reporter.py flush: return unchanged unless sim_time lands on the logging
period; otherwise hand the buffered reports to every handler and clear the
buffer. -/
def Reporter.flush (self : Reporter) (sim_time : Nat) :
    Reporter × List (Nat × List Report) :=
  if sim_time % self.log_period_seconds ≠ 0 then (self, [])
  else ({ self with reports := [] }, self.handlers.map fun h => (h, self.reports))

/-- C9: with a positive logging period, flush forwards the buffer to every
handler and empties it exactly when sim_time is an integer multiple of
log_period_seconds; on any other sim_time it returns the reporter unchanged
with no handler invoked. -/
theorem reporter_flush_period (r : Reporter) (sim_time : Nat)
    (hp : 0 < r.log_period_seconds) :
    (r.log_period_seconds ∣ sim_time →
      r.flush sim_time
        = ({ r with reports := [] }, r.handlers.map fun h => (h, r.reports))) ∧
    (¬r.log_period_seconds ∣ sim_time → r.flush sim_time = (r, [])) := by
  have hmod : r.log_period_seconds ∣ sim_time ↔ sim_time % r.log_period_seconds = 0 :=
    Nat.dvd_iff_mod_eq_zero
  constructor <;> intro hdvd <;> rw [hmod] at hdvd <;> simp [Reporter.flush, hdvd]

/-- A sample reporter with one buffered report and one handler. -/
def reporterSample : Reporter :=
  { log_period_seconds := 60, reports := [{ report_type := 0, report := [] }],
    handlers := [0] }

/-- Witness for C9: at sim_time 120 the sample reporter flushes its buffer to
its handler. -/
theorem reporter_flush_period_witness :
    reporterSample.flush 120
      = ({ reporterSample with reports := [] },
          reporterSample.handlers.map fun h => (h, reporterSample.reports)) :=
  (reporter_flush_period reporterSample 120 (by decide)).1 (by decide)
